import Mathlib

/-!
Shallow embedding of `src/gradescope_request.py` (a minimal Gradescope
scraping client) and proofs about its specification claims.

Modelling conventions:
* Python strings are Lean `String`s; the Python string operations used by the
  source (`in`, `.split('/')`, `.strip()`, `str()`, `int()`) are re-implemented
  below on `List Char` by structural recursion so that they compute.
  The whitespace set of `.strip()` is modelled by `Char.isWhitespace`
  (ASCII whitespace); `\d` of `re.findall` is modelled by `Char.isDigit`
  (ASCII digits).
* A parsed HTML document (`BeautifulSoup(response.text, 'html.parser')`) is
  modelled by the tree type `Node`; an HTTP response carries its parsed
  document directly.
* Python exceptions are modelled by the error type `PyError`; a raising
  operation returns `Except PyError α`.
* Network traffic is modelled by an environment `env : Nat → Response` giving
  the response to the k-th HTTP request an operation issues; each operation
  also reports how many requests it issued, so "fails before any HTTP request"
  is the request count being 0.
-/

/-- `segStarts pre l` : `pre` is a prefix of `l` (char-list version). -/
def segStarts : List Char → List Char → Bool
  | [], _ => true
  | _ :: _, [] => false
  | a :: as, b :: bs => a == b && segStarts as bs

/-- `segFind needle hay` : `needle` occurs contiguously inside `hay`. -/
def segFind (needle : List Char) : List Char → Bool
  | [] => needle.isEmpty
  | c :: rest => segStarts needle (c :: rest) || segFind needle rest

/-- Model of the Python substring test `needle in hay`. -/
def pyIn (needle hay : String) : Bool :=
  segFind needle.data hay.data

/-- Split a char list on a separator character; the result is always
nonempty, matching Python `str.split(sep)` which never returns `[]`. -/
def chSplit (sep : Char) : List Char → List (List Char)
  | [] => [[]]
  | c :: rest =>
    let r := chSplit sep rest
    if c == sep then [] :: r
    else
      match r with
      | h :: t => (c :: h) :: t
      | [] => [[c]]

/-- Model of Python `s.split(sep)` for a one-character separator. -/
def pySplit (sep : Char) (s : String) : List String :=
  (chSplit sep s.data).map String.mk

/-- Drop leading whitespace of a char list. -/
def dropWS : List Char → List Char
  | [] => []
  | c :: rest => if c.isWhitespace then dropWS rest else c :: rest

/-- Model of Python `s.strip()` (ASCII whitespace). -/
def pyStrip (s : String) : String :=
  String.mk (dropWS ((dropWS s.data.reverse).reverse))

/-- Value of a list of decimal digit characters, most significant first. -/
def digitsVal (ds : List Char) : Nat :=
  ds.foldl (fun a c => 10 * a + (c.toNat - 48)) 0

/-- Decimal rendering of `n`, with an explicit fuel argument (`fuel > n`
suffices); models Python `str()` on a nonnegative integer. -/
def natToStrAux : Nat → Nat → List Char
  | 0, _ => []
  | fuel + 1, n =>
    if n < 10 then [Char.ofNat (48 + n)]
    else natToStrAux fuel (n / 10) ++ [Char.ofNat (48 + n % 10)]

/-- Decimal rendering of a natural number; models Python `str()`. -/
def natToStr (n : Nat) : String :=
  String.mk (natToStrAux (n + 1) n)

/-- Decidable equality of `Except` results, so that concrete runs can be
settled by `decide`. -/
instance instDecEqExcept {ε α : Type} [DecidableEq ε] [DecidableEq α] :
    DecidableEq (Except ε α) := fun a b =>
  match a, b with
  | .error e, .error f =>
    if h : e = f then .isTrue (by rw [h]) else .isFalse (by simp [h])
  | .error _, .ok _ => .isFalse (by simp)
  | .ok _, .error _ => .isFalse (by simp)
  | .ok x, .ok y =>
    if h : x = y then .isTrue (by rw [h]) else .isFalse (by simp [h])

/-- Model of the Python exceptions that the source can raise.
`GradescopeError` subclasses (`LoginError`, `NotLoggedInError`,
`ResponseError`) carry their message; built-in exceptions
(`TypeError`, `NameError`/`UnboundLocalError`, `ValueError`,
`AttributeError`, `KeyError`) likewise. -/
inductive PyError where
  | typeError (msg : String)
  | nameError (msg : String)
  | valueError (msg : String)
  | attributeError (msg : String)
  | keyError (msg : String)
  | loginError (msg : String)
  | notLoggedInError (msg : String)
  | responseError (msg : String)
deriving DecidableEq

/-- A parsed HTML tree: element nodes (tag, attributes, children) and text
nodes, modelling BeautifulSoup `Tag` and `NavigableString`. -/
inductive Node where
  | elem (tag : String) (attrs : List (String × String)) (children : List Node)
  | text (s : String)

/-- Attribute lookup, modelling `tag.get(key)`; `none` on a text node. -/
def Node.attr : Node → String → Option String
  | .elem _ attrs _, k => (attrs.find? (fun p => p.1 == k)).map Prod.snd
  | .text _, _ => none

/-- Attribute lookup with default, modelling `tag.get(key, default)`. -/
def Node.attrD (n : Node) (k d : String) : String :=
  (n.attr k).getD d

/-- The tag name, modelling `tag.name`; a text node's name (`None` in
BeautifulSoup) is modelled by `""`, which matches no real tag name. -/
def Node.tag : Node → String
  | .elem t _ _ => t
  | .text _ => ""

/-- The whitespace-separated class tokens of the `class` attribute. -/
def Node.classes (n : Node) : List String :=
  (pySplit ' ' (n.attrD "class" "")).filter (fun s => s != "")

/-- Class-token membership, modelling BeautifulSoup `class_=c` matching. -/
def Node.hasClass (n : Node) (c : String) : Bool :=
  n.classes.contains c

/-- Model of BeautifulSoup `tag.string`: the single string child, looking
through a single element child; `None` otherwise. -/
def Node.strDeep : Node → Option String
  | .text s => some s
  | .elem _ _ [c] => Node.strDeep c
  | .elem _ _ _ => none

mutual

/-- Concatenated text of a node, modelling `tag.get_text()` / `tag.text`. -/
def Node.getText : Node → String
  | .text s => s
  | .elem _ _ cs => getTextList cs

/-- Concatenated text of a list of nodes. -/
def getTextList : List Node → String
  | [] => ""
  | c :: rest => Node.getText c ++ getTextList rest

end

mutual

/-- Concatenated stripped text, modelling `tag.get_text(strip=True)`:
each text fragment is stripped and the fragments are joined with `''`. -/
def Node.getTextStrip : Node → String
  | .text s => pyStrip s
  | .elem _ _ cs => getTextStripList cs

/-- Concatenated stripped text of a list of nodes. -/
def getTextStripList : List Node → String
  | [] => ""
  | c :: rest => Node.getTextStrip c ++ getTextStripList rest

end

mutual

/-- All descendants of a node (excluding the node itself) satisfying `p`, in
document order, each paired with its list of following siblings; models
BeautifulSoup `find_all` while retaining the context that
`find_next_sibling` needs. -/
def bsDescAll (p : Node → Bool) : Node → List (Node × List Node)
  | .elem _ _ cs => bsListAll p cs
  | .text _ => []

/-- All nodes of a sibling list and their descendants satisfying `p`, in
document order, each paired with its following siblings. -/
def bsListAll (p : Node → Bool) : List Node → List (Node × List Node)
  | [] => []
  | n :: rest =>
    (if p n then [(n, rest)] else []) ++ bsDescAll p n ++ bsListAll p rest

end

/-- Model of `tag.find(...)`: first matching descendant with its following
siblings, `none` when absent. -/
def bsFind (p : Node → Bool) (n : Node) : Option (Node × List Node) :=
  (bsDescAll p n).head?

/-- Model of `tag.find_all(...)` (matching descendants, document order). -/
def bsFindAll (p : Node → Bool) (n : Node) : List Node :=
  (bsDescAll p n).map Prod.fst

/-- Model of `tag.find_next_sibling(...)` given the tag's following
siblings: the first following sibling matching `p`. -/
def bsNextSib (p : Node → Bool) (sibs : List Node) : Option Node :=
  sibs.find? p

/-- An HTTP response, modelling the fields of `requests.Response` that the
source reads: `status_code`, `url` (the URL of the request that produced the
response, after any redirects), and the parsed document of `response.text`. -/
structure Response where
  statusCode : Nat
  url : String
  doc : Node

/-- `Constants.BASE_URL` of the source. -/
def Constants.BASE_URL : String := "https://www.gradescope.com"

/-- `Constants.LOGIN_URL` of the source. -/
def Constants.LOGIN_URL : String := Constants.BASE_URL ++ "/login"

/-- Is `c` legal inside a URL scheme name (RFC 3986)? -/
def isSchemeChar (c : Char) : Bool :=
  c.isAlphanum || c == '+' || c == '-' || c == '.'

/-- Does `u` start with `scheme:` (a nonempty scheme name before the first
colon, with the colon occurring before any slash)? -/
def urlHasScheme (u : String) : Bool :=
  match pySplit ':' u with
  | first :: _ :: _ =>
    (match first.data with
     | c :: _ => c.isAlpha
     | [] => false)
    && first.data.all isSchemeChar
  | _ => false

/-- The `scheme://host` part of an absolute URL (everything up to the first
slash after the authority). -/
def urlOrigin (base : String) : String :=
  match pySplit ':' base with
  | scheme :: _ :: _ =>
    match (String.drop base (scheme.length + 3)) |> pySplit '/' with
    | host :: _ => scheme ++ "://" ++ host
    | [] => base
  | _ => base

/-- Model of `urllib.parse.urljoin(base, url)`, restricted to the shapes the
source uses: `base` is an absolute `scheme://host` URL with empty path (the
fixed `Constants.BASE_URL`), and `url` is an absolute URL with authority, a
network-path reference (`//...`), an absolute-path reference (`/...`), or a
plain relative path without dot-segments. -/
def urljoin (base url : String) : String :=
  if url == "" then base
  else if urlHasScheme url then url
  else if segStarts "//".data url.data then
    (match pySplit ':' base with
     | scheme :: _ :: _ => scheme ++ ":" ++ url
     | _ => url)
  else if segStarts "/".data url.data then urlOrigin base ++ url
  else urlOrigin base ++ "/" ++ url

/-- The `Course` dataclass of the source. -/
structure Course where
  course_id : Nat
  url : String
  term : String
  short_name : String
  full_name : String
deriving DecidableEq

/-- `Course.get_url`: the full URL of the course. -/
def Course.get_url (c : Course) : String :=
  urljoin Constants.BASE_URL c.url

/-- The `Assignment` dataclass of the source. -/
structure Assignment where
  assignment_id : Int
  ready_for_submission : Bool
  url : String
  title : String
  late_submission_warning : Bool
  submission_status : String
  released_time : String
  due_time : String
deriving DecidableEq

/-- `Assignment.get_url`: the full URL of the assignment. -/
def Assignment.get_url (a : Assignment) : String :=
  urljoin Constants.BASE_URL a.url

/-- `Assignment.get_grades_url`: the URL of the grades CSV download. -/
def Assignment.get_grades_url (a : Assignment) : String :=
  urljoin Constants.BASE_URL (a.url ++ "/scores.csv")

/-- The mutable state of a `Gradescope` client instance: the credentials
(`Option` so that Python `None` is representable) and the `logged_in`
attribute, which does not exist until `login()` first assigns it
(`none` = attribute unset). -/
structure Gradescope where
  username : Option String
  password : Option String
  logged_in : Option Bool
deriving DecidableEq

/-- `Gradescope._parse_int`: joins all digit characters of `text` and parses
the result with `int()`; raises `ValueError` when `text` has no digits
(`int('')`). -/
def Gradescope._parse_int (text : String) : Except PyError Nat :=
  let ds := text.data.filter Char.isDigit
  if ds.isEmpty then .error (.valueError "invalid literal for int() with base 10")
  else .ok (digitsVal ds)

/-- The message of the `ResponseError` that `_response_check` raises (the
f-string of the source). -/
def respMsg (r : Response) : String :=
  "Failed to fetch the webpage. Status code: " ++ natToStr r.statusCode
    ++ ". URL: " ++ r.url

/-- `Gradescope._response_check`: `True` on status 200, otherwise raises
`ResponseError` with a message carrying the status code and the URL. -/
def Gradescope._response_check (r : Response) : Except PyError Bool :=
  if r.statusCode == 200 then .ok true
  else .error (.responseError (respMsg r))

/-- The filter of `soup.find('input', attrs={'name': 'authenticity_token'})`. -/
def tokenInputSel (n : Node) : Bool :=
  n.tag == "input" && n.attr "name" == some "authenticity_token"

/-- `Gradescope.login`, modelled on an environment `env` of responses
(`env 0` answers the GET of the site root, `env 1` the login POST).
Returns the Python result (`bool` or raised error), the updated client
state, and the number of HTTP requests issued.

The source reads `token_input.get('value')` only under `if token_input:`;
when the token input is absent, the local `authenticity_token` is never
assigned and building the form data raises `UnboundLocalError` (a
`NameError`) before the POST. -/
def Gradescope.login (s : Gradescope) (env : Nat → Response) :
    Except PyError Bool × Gradescope × Nat :=
  if s.username.isNone || s.password.isNone then
    (.error (.typeError "The username or password cannot be None."), s, 0)
  else
    let r0 := env 0
    match Gradescope._response_check r0 with
    | .error e => (.error e, s, 1)
    | .ok _ =>
      match bsFind tokenInputSel r0.doc with
      | none =>
        (.error (.nameError
          "cannot access local variable authenticity_token where it is not associated with a value"), s, 1)
      | some _ =>
        let r1 := env 1
        match Gradescope._response_check r1 with
        | .error e => (.error e, s, 2)
        | .ok _ =>
          if pyIn "account" r1.url then
            (.ok true, { s with logged_in := some true }, 2)
          else if pyIn "login" r1.url then
            (.ok false, { s with logged_in := some false }, 2)
          else
            (.error (.loginError "Unknown return URL."),
              { s with logged_in := some false }, 2)

/-- `Gradescope.__init__`: stores the credentials, attempts `login()`, and on
a boolean outcome returns the constructed client together with the emitted
log lines; an exception raised by `login()` propagates and construction
fails. -/
def Gradescope.init (username password : Option String) (env : Nat → Response) :
    Except PyError (Gradescope × List String) :=
  let s0 : Gradescope := { username := username, password := password, logged_in := none }
  match Gradescope.login s0 env with
  | (.error e, _, _) => .error e
  | (.ok true, s1, _) => .ok (s1, ["[Info] Login successful."])
  | (.ok false, s1, _) => .ok (s1, ["[Warning] Login failed."])

/-- The filter of `soup.find('h1', string="Your Courses")`. -/
def headingSel (n : Node) : Bool :=
  n.tag == "h1" && n.strDeep == some "Your Courses"

/-- The filter of `find_next_sibling('div', class_='courseList')`. -/
def courseListSel (n : Node) : Bool :=
  n.tag == "div" && n.hasClass "courseList"

/-- The filter of `find_all(class_='courseList--term')`. -/
def termSel (n : Node) : Bool :=
  n.hasClass "courseList--term"

/-- The filter of `find_next_sibling(class_='courseList--coursesForTerm')`. -/
def termBoxesSel (n : Node) : Bool :=
  n.hasClass "courseList--coursesForTerm"

/-- The filter of `find_all(class_='courseBox')`. -/
def courseBoxSel (n : Node) : Bool :=
  n.hasClass "courseBox"

/-- The filter of `find(class_='courseBox--shortname')`. -/
def shortnameSel (n : Node) : Bool :=
  n.hasClass "courseBox--shortname"

/-- The filter of `find(class_='courseBox--name')`. -/
def fullnameSel (n : Node) : Bool :=
  n.hasClass "courseBox--name"

/-- Construction of one `Course` from an anchor `courseBox`, following the
argument order of the `Course(...)` call in `get_courses`:
`course_id` is parsed first (`_parse_int` of the last `/`-segment of the
`href`, raising `ValueError` when it has no digits), then the shortname and
name nodes are looked up (`find(...)` returning `None` makes the chained
`get_text` raise `AttributeError`).
The source passes `url=course.get('href', None)`; that call site is only
reached when the `href` attribute is present (otherwise `_parse_int('')`
already raised), so the default is modelled by `""` without loss. -/
def parseCourse (term_name : String) (box : Node) : Except PyError Course :=
  match Gradescope._parse_int ((pySplit '/' (box.attrD "href" "")).getLastD "") with
  | .error e => .error e
  | .ok cid =>
    match bsFind shortnameSel box with
    | none => .error (.attributeError "NoneType object has no attribute get_text")
    | some (sn, _) =>
      match bsFind fullnameSel box with
      | none => .error (.attributeError "NoneType object has no attribute get_text")
      | some (fn, _) =>
        .ok { course_id := cid
              url := box.attrD "href" ""
              term := term_name
              short_name := sn.getTextStrip
              full_name := fn.getTextStrip }

/-- The `for course in courses_container.find_all(class_='courseBox')` loop:
elements whose tag is not `a` are skipped; an exception from `Course(...)`
aborts the whole call. -/
def parseBoxes (term_name : String) : List Node → Except PyError (List Course)
  | [] => .ok []
  | b :: rest =>
    if b.tag == "a" then
      match parseCourse term_name b with
      | .error e => .error e
      | .ok c =>
        match parseBoxes term_name rest with
        | .error e => .error e
        | .ok cs => .ok (c :: cs)
    else parseBoxes term_name rest

/-- The `for term in course_lists.find_all(class_='courseList--term')` loop:
each term node comes with its following siblings; a term whose
`courseList--coursesForTerm` sibling is absent contributes nothing
(the `if courses_container:` guard); results accumulate in order. -/
def parseTerms : List (Node × List Node) → Except PyError (List Course)
  | [] => .ok []
  | (t, sibs) :: rest =>
    match bsNextSib termBoxesSel sibs with
    | none => parseTerms rest
    | some container =>
      match parseBoxes (Node.getTextStrip t) (bsFindAll courseBoxSel container) with
      | .error e => .error e
      | .ok cs =>
        match parseTerms rest with
        | .error e => .error e
        | .ok more => .ok (cs ++ more)

/-- `Gradescope.get_courses`, modelled on an environment of responses
(`env 0` answers the GET of the site root). Reading `self.logged_in` before
`login()` ever assigned it raises `AttributeError`; when it is `False`,
`NotLoggedInError` is raised before any request. A missing heading raises
`ResponseError`; a missing `courseList` sibling makes
`course_lists.find_all` raise `AttributeError` on `None`. -/
def Gradescope.get_courses (s : Gradescope) (env : Nat → Response) :
    Except PyError (List Course) × Nat :=
  match s.logged_in with
  | none => (.error (.attributeError "Gradescope object has no attribute logged_in"), 0)
  | some false => (.error (.notLoggedInError "Not logged in."), 0)
  | some true =>
    let r := env 0
    match Gradescope._response_check r with
    | .error e => (.error e, 1)
    | .ok _ =>
      match bsFind headingSel r.doc with
      | none => (.error (.responseError "Cannot find heading \"Your Courses\""), 1)
      | some (_, sibs) =>
        match bsNextSib courseListSel sibs with
        | none => (.error (.attributeError "NoneType object has no attribute find_all"), 1)
        | some cl => (parseTerms (bsDescAll termSel cl), 1)

/-- The season label `get_term_courses` derives from the wall-clock month. -/
def seasonOf (month : Nat) : String :=
  if 2 ≤ month ∧ month ≤ 6 then "Spring"
  else if 9 ≤ month ∧ month ≤ 12 then "Fall"
  else "Summer"

/-- `Gradescope.get_term_courses`, with the wall clock (`datetime.now()`)
passed in as `month`/`year`: calls `get_courses` and filters by the term
label `f"{season} {current_year}"`. -/
def Gradescope.get_term_courses (s : Gradescope) (env : Nat → Response)
    (month year : Nat) : Except PyError (List Course) × Nat :=
  match Gradescope.get_courses s env with
  | (.error e, n) => (.error e, n)
  | (.ok cs, n) =>
    (.ok (cs.filter (fun c => c.term == seasonOf month ++ " " ++ natToStr year)), n)

/-- The row dictionary `get_assignments` builds per table row (the source
returns plain dicts with these keys, not `Assignment` records). -/
structure AssignmentRow where
  assignment_id : Int
  ready_for_submission : Bool
  url : String
  title : String
  late_submission_warning : Bool
  submission_status : String
  released_time : String
  due_time : String
deriving DecidableEq

/-- Model of Python `int(s)` on a string: optional sign, then a nonempty
run of digits, with surrounding whitespace allowed; anything else raises
`ValueError`. (Digit-group underscores are not modelled.) -/
def pyIntSign : List Char → Int × List Char
  | '-' :: rest => (-1, rest)
  | '+' :: rest => (1, rest)
  | ds => (1, ds)

/-- Model of Python `int(s)` on a string. -/
def pyInt (s : String) : Except PyError Int :=
  let p := pyIntSign (pyStrip s).data
  if !p.2.isEmpty && p.2.all Char.isDigit then .ok (p.1 * (digitsVal p.2 : Int))
  else .error (.valueError "invalid literal for int() with base 10")

/-- Model of `tag[key]` subscription: the attribute value, or `KeyError`. -/
def pyItem (n : Node) (k : String) : Except PyError String :=
  match n.attr k with
  | some v => .ok v
  | none => .error (.keyError k)

/-- The filter of `row.find('button', {'class': 'js-submitAssignment'})`. -/
def submitButtonSel (n : Node) : Bool :=
  n.tag == "button" && n.hasClass "js-submitAssignment"

/-- The filter of `row.find('td', {'class': 'submissionStatus'})`. -/
def statusTdSel (n : Node) : Bool :=
  n.tag == "td" && n.hasClass "submissionStatus"

/-- The filter of `find('div', {'class': 'submissionStatus--text'})`. -/
def statusTextSel (n : Node) : Bool :=
  n.tag == "div" && n.hasClass "submissionStatus--text"

/-- The filter of `row.find('time', {'class': 'submissionTimeChart--releaseDate'})`. -/
def releaseTimeSel (n : Node) : Bool :=
  n.tag == "time" && n.hasClass "submissionTimeChart--releaseDate"

/-- The filter of `row.find('time', {'class': 'submissionTimeChart--dueDate'})`. -/
def dueTimeSel (n : Node) : Bool :=
  n.tag == "time" && n.hasClass "submissionTimeChart--dueDate"

/-- The filter of `soup.find('table', {'id': 'assignments-student-table'})`. -/
def assignTableSel (n : Node) : Bool :=
  n.tag == "table" && n.attr "id" == some "assignments-student-table"

/-- The filter of `.find('tbody')`. -/
def tbodySel (n : Node) : Bool :=
  n.tag == "tbody"

/-- The filter of `.find_all('tr')`. -/
def trSel (n : Node) : Bool :=
  n.tag == "tr"

/-- One iteration of the row loop of `get_assignments`, in source order:
a missing submit button makes `button[...]` raise `TypeError` (`None` is not
subscriptable); a missing attribute raises `KeyError`; a missing status `td`
or nested `div` raises `AttributeError`; a missing `time` element raises
`TypeError`. -/
def parseRow (row : Node) : Except PyError AssignmentRow :=
  match bsFind submitButtonSel row with
  | none => .error (.typeError "NoneType object is not subscriptable")
  | some (button, _) => do
    let idText ← pyItem button "data-assignment-id"
    let aid ← pyInt idText
    let ready ← pyItem button "data-ready-for-submission"
    let url ← pyItem button "data-post-url"
    let title ← pyItem button "data-assignment-title"
    let late ← pyItem button "data-show-late-submission-warning"
    let status ←
      match bsFind statusTdSel row with
      | none => .error (.attributeError "NoneType object has no attribute find")
      | some (td, _) =>
        match bsFind statusTextSel td with
        | none => .error (.attributeError "NoneType object has no attribute text")
        | some (dv, _) => .ok (pyStrip (Node.getText dv))
    let rel ←
      match bsFind releaseTimeSel row with
      | none => .error (.typeError "NoneType object is not subscriptable")
      | some (tm, _) => pyItem tm "datetime"
    let due ←
      match bsFind dueTimeSel row with
      | none => .error (.typeError "NoneType object is not subscriptable")
      | some (tm, _) => pyItem tm "datetime"
    .ok { assignment_id := aid
          ready_for_submission := ready == "true"
          url := url
          title := title
          late_submission_warning := late == "true"
          submission_status := status
          released_time := rel
          due_time := due }

/-- The `for row in assignments_data.find('tbody').find_all('tr')` loop. -/
def parseRows : List Node → Except PyError (List AssignmentRow)
  | [] => .ok []
  | r :: rest =>
    match parseRow r with
    | .error e => .error e
    | .ok a =>
      match parseRows rest with
      | .error e => .error e
      | .ok more => .ok (a :: more)

/-- `Gradescope.get_assignments`, modelled on an environment of responses
(`env 0` answers the GET of `course.get_url()`). A missing assignments
table makes `.find('tbody')` raise `AttributeError` on `None`; a missing
`tbody` makes `.find_all('tr')` raise `AttributeError` on `None`. -/
def Gradescope.get_assignments (s : Gradescope) (course : Course)
    (env : Nat → Response) : Except PyError (List AssignmentRow) × Nat :=
  match s.logged_in with
  | none => (.error (.attributeError "Gradescope object has no attribute logged_in"), 0)
  | some false => (.error (.notLoggedInError "Not logged in."), 0)
  | some true =>
    let r := env 0
    match Gradescope._response_check r with
    | .error e => (.error e, 1)
    | .ok _ =>
      match bsFind assignTableSel r.doc with
      | none => (.error (.attributeError "NoneType object has no attribute find"), 1)
      | some (tbl, _) =>
        match bsFind tbodySel tbl with
        | none => (.error (.attributeError "NoneType object has no attribute find_all"), 1)
        | some (tb, _) => (parseRows (bsFindAll trSel tb), 1)

mutual

/-- Decidable equality of HTML nodes (hand-written: the nested `List Node`
field defeats the deriving handler). -/
def nodeDecEq : (a b : Node) → Decidable (a = b)
  | .text s, .text t =>
    if h : s = t then .isTrue (by rw [h]) else .isFalse (by simp [h])
  | .text _, .elem _ _ _ => .isFalse (by simp)
  | .elem _ _ _, .text _ => .isFalse (by simp)
  | .elem t1 a1 c1, .elem t2 a2 c2 =>
    match nodeListDecEq c1 c2 with
    | .isTrue hc =>
      if h : t1 = t2 ∧ a1 = a2 then .isTrue (by rw [h.1, h.2, hc])
      else .isFalse (by simp [hc]; intro h1 h2; exact h ⟨h1, h2⟩)
    | .isFalse hc => .isFalse (by simp; intro _ _; exact hc)

/-- Decidable equality of lists of HTML nodes. -/
def nodeListDecEq : (a b : List Node) → Decidable (a = b)
  | [], [] => .isTrue rfl
  | [], _ :: _ => .isFalse (by simp)
  | _ :: _, [] => .isFalse (by simp)
  | x :: xs, y :: ys =>
    match nodeDecEq x y, nodeListDecEq xs ys with
    | .isTrue h1, .isTrue h2 => .isTrue (by rw [h1, h2])
    | .isFalse h1, _ => .isFalse (by simp; intro hh; exact absurd hh h1)
    | _, .isFalse h2 => .isFalse (by simp; intro _ hh; exact absurd hh h2)

end

instance : DecidableEq Node := nodeDecEq

/-- An HTML document with no interesting landmarks. -/
def emptyDoc : Node := Node.elem "html" [] []

/-- A root page whose login form carries the authenticity-token input. -/
def loginFormDoc : Node :=
  Node.elem "html" [] [Node.elem "body" [] [Node.elem "form" []
    [Node.elem "input" [("name", "authenticity_token"), ("value", "tok123")] []]]]

/-- A root page whose login form has no authenticity-token input. -/
def noTokenDoc : Node :=
  Node.elem "html" [] [Node.elem "body" [] [Node.elem "form" []
    [Node.elem "input" [("name", "email")] []]]]

/-- Environment for a login run: the GET of the root is answered 200 with
document `d0`; the POST is answered 200 with final URL `u`. -/
def loginEnv (d0 : Node) (u : String) : Nat → Response :=
  fun k =>
    if k == 0 then { statusCode := 200, url := Constants.BASE_URL, doc := d0 }
    else { statusCode := 200, url := u, doc := emptyDoc }

/-- Environment answering every request 200 with document `d`. -/
def pageEnv (d : Node) : Nat → Response :=
  fun _ => { statusCode := 200, url := Constants.BASE_URL, doc := d }

/-- Environment answering every request with HTTP status `code`. -/
def failEnv (code : Nat) : Nat → Response :=
  fun _ => { statusCode := code, url := Constants.BASE_URL, doc := emptyDoc }

/-- A client that has completed a successful login. -/
def loggedClient : Gradescope :=
  { username := some "u", password := some "p", logged_in := some true }

/-- A client whose login attempt returned `False`. -/
def outClient : Gradescope :=
  { username := some "u", password := some "p", logged_in := some false }

/-- A freshly constructed client state, before `login()` classifies. -/
def freshClient : Gradescope :=
  { username := some "u", password := some "p", logged_in := none }

/-- A root page with the heading, one term and one anchor course box. -/
def sampleRootDoc : Node :=
  Node.elem "html" [] [Node.elem "body" [] [
    Node.elem "h1" [] [Node.text "Your Courses"],
    Node.elem "div" [("class", "courseList")] [
      Node.elem "div" [("class", "courseList--term")] [Node.text "Fall 2024"],
      Node.elem "div" [("class", "courseList--coursesForTerm")] [
        Node.elem "a" [("class", "courseBox"), ("href", "/courses/1234")] [
          Node.elem "h3" [("class", "courseBox--shortname")] [Node.text "CS101"],
          Node.elem "div" [("class", "courseBox--name")] [Node.text "Intro to CS"]]]]]]

/-- A root page where the term label has no following
`courseList--coursesForTerm` container. -/
def softSkipDoc : Node :=
  Node.elem "html" [] [Node.elem "body" [] [
    Node.elem "h1" [] [Node.text "Your Courses"],
    Node.elem "div" [("class", "courseList")] [
      Node.elem "div" [("class", "courseList--term")] [Node.text "Fall 2024"]]]]

/-- A submit-control button with all data attributes present. -/
def goodButton : Node :=
  Node.elem "button"
    [("class", "js-submitAssignment"), ("data-assignment-id", "7"),
     ("data-ready-for-submission", "true"),
     ("data-post-url", "/courses/1234/assignments/7"),
     ("data-assignment-title", "HW1"),
     ("data-show-late-submission-warning", "false")] []

/-- A status cell with its nested status text node. -/
def statusCell : Node :=
  Node.elem "td" [("class", "submissionStatus")]
    [Node.elem "div" [("class", "submissionStatus--text")] [Node.text "Submitted"]]

/-- A release-date time element. -/
def releaseTimeNode : Node :=
  Node.elem "time"
    [("class", "submissionTimeChart--releaseDate"), ("datetime", "2024-01-01T00:00:00")] []

/-- A due-date time element. -/
def dueTimeNode : Node :=
  Node.elem "time"
    [("class", "submissionTimeChart--dueDate"), ("datetime", "2024-02-01T00:00:00")] []

/-- A table row lacking the status cell. -/
def rowNoStatus : Node :=
  Node.elem "tr" [] [goodButton, releaseTimeNode, dueTimeNode]

/-- A table row lacking the release-date time element. -/
def rowNoRelease : Node :=
  Node.elem "tr" [] [goodButton, statusCell, dueTimeNode]

/-- A table row lacking the due-date time element. -/
def rowNoDue : Node :=
  Node.elem "tr" [] [goodButton, statusCell, releaseTimeNode]

/-- The course record that `sampleRootDoc` parses to. -/
def sampleCourse : Course :=
  { course_id := 1234, url := "/courses/1234", term := "Fall 2024",
    short_name := "CS101", full_name := "Intro to CS" }

/-- A `courseBox` element that is not an anchor tag. -/
def divBox : Node :=
  Node.elem "div" [("class", "courseBox")] [Node.text "Advertisement"]

/-! ## Helper lemmas -/

/-- A prefix check succeeds on any extension of the prefix. -/
theorem segStarts_append (x y : List Char) : segStarts x (x ++ y) = true := by
  induction x with
  | nil => simp [segStarts]
  | cons c cs ih => simp [segStarts, ih]

/-- A contiguous occurrence between two contexts is found. -/
theorem segFind_middle (pre mid post : List Char) :
    segFind mid (pre ++ (mid ++ post)) = true := by
  induction pre with
  | nil =>
    cases mid with
    | nil => cases post <;> simp [segFind, segStarts]
    | cons m ms => simp [segFind, segStarts, segStarts_append]
  | cons c cs ih => simp [segFind, ih]

/-- `pyIn` finds a substring placed between two contexts. -/
theorem pyIn_middle (pre mid post : String) :
    pyIn mid (pre ++ mid ++ post) = true := by
  have h : (pre ++ mid ++ post).data = pre.data ++ (mid.data ++ post.data) := by
    simp [List.append_assoc]
  unfold pyIn
  rw [h]
  exact segFind_middle _ _ _

/-- `pyIn` finds a suffix. -/
theorem pyIn_suffix (pre mid : String) : pyIn mid (pre ++ mid) = true := by
  have h := pyIn_middle pre mid ""
  simpa using h

/-! ## Claim theorems -/

/-- Claim C8: a Course with relative URL `/courses/123` has full URL
`https://www.gradescope.com/courses/123`, and an Assignment with relative
URL `/courses/123/assignments/456` has grades URL
`https://www.gradescope.com/courses/123/assignments/456/scores.csv`,
whatever the other fields hold. -/
theorem C8_url_roundtrip :
    (∀ cid term sn fn, Course.get_url
        { course_id := cid, url := "/courses/123", term := term,
          short_name := sn, full_name := fn } =
        "https://www.gradescope.com/courses/123") ∧
    (∀ aid rdy ttl late st rel due, Assignment.get_grades_url
        { assignment_id := aid, ready_for_submission := rdy,
          url := "/courses/123/assignments/456", title := ttl,
          late_submission_warning := late, submission_status := st,
          released_time := rel, due_time := due } =
        "https://www.gradescope.com/courses/123/assignments/456/scores.csv") :=
  ⟨fun _ _ _ _ => rfl, fun _ _ _ _ _ _ _ => rfl⟩

/-- Claim C3 as stated is false: constructing the client with empty-string
credentials does not fail at all (no `InvalidCredentialsError` exists in the
code); the constructor simply attempts the login, which here returns
`False`, and construction succeeds. -/
theorem C3_counterexample :
    Gradescope.init (some "") (some "") (loginEnv loginFormDoc Constants.LOGIN_URL) =
      .ok ({ username := some "", password := some "", logged_in := some false },
        ["[Warning] Login failed."]) := by decide

/-- Claim C3, amended: a `None` username or password makes construction fail
with `TypeError` ("The username or password cannot be None."), raised by the
`login()` call inside the constructor; empty-string credentials are not
rejected — construction proceeds with the login attempt. -/
theorem C3_credential_check :
    (∀ (p : Option String) (env : Nat → Response), Gradescope.init none p env =
        .error (.typeError "The username or password cannot be None.")) ∧
    (∀ (u : Option String) (env : Nat → Response), Gradescope.init u none env =
        .error (.typeError "The username or password cannot be None.")) ∧
    Gradescope.init (some "") (some "") (loginEnv loginFormDoc Constants.LOGIN_URL) =
      .ok ({ username := some "", password := some "", logged_in := some false },
        ["[Warning] Login failed."]) := by
  refine ⟨fun p env => ?_, fun u env => ?_, by decide⟩
  · simp [Gradescope.init, Gradescope.login]
  · simp [Gradescope.init, Gradescope.login]

/-- Claim C5: with credentials present and a 200 root page that has no
`authenticity_token` input, `login()` does not proceed to the POST with the
token omitted — it crashes with `UnboundLocalError` (a `NameError`) while
building the form data, after only 1 HTTP request (the GET). -/
theorem C5_token_absent_crash :
    Gradescope.login freshClient (loginEnv noTokenDoc Constants.LOGIN_URL) =
      (.error (.nameError
        "cannot access local variable authenticity_token where it is not associated with a value"),
       freshClient, 1) := by decide

/-- Claim C2: with the logged-in flag `False`, each retrieval operation
fails with `NotLoggedInError` ("Not logged in.") having issued 0 HTTP
requests. -/
theorem C2_not_logged_in_guard (s : Gradescope) (env : Nat → Response)
    (course : Course) (month year : Nat) (h : s.logged_in = some false) :
    Gradescope.get_courses s env = (.error (.notLoggedInError "Not logged in."), 0) ∧
    Gradescope.get_term_courses s env month year =
      (.error (.notLoggedInError "Not logged in."), 0) ∧
    Gradescope.get_assignments s course env =
      (.error (.notLoggedInError "Not logged in."), 0) := by
  refine ⟨?_, ?_, ?_⟩ <;>
    simp [Gradescope.get_courses, Gradescope.get_term_courses,
      Gradescope.get_assignments, h]

/-- Witness for C2 at a concrete never-logged-in client. -/
theorem C2_not_logged_in_guard_witness :
    Gradescope.get_courses outClient (pageEnv sampleRootDoc) =
      (.error (.notLoggedInError "Not logged in."), 0) :=
  (C2_not_logged_in_guard outClient (pageEnv sampleRootDoc) sampleCourse 10 2024
    (by decide)).1

/-- Claim C4 as stated is false: with non-absent credentials but a login
POST whose final URL contains neither "account" nor "login", the
`LoginError` raised by `login()` propagates out of the constructor, so
construction fails. -/
theorem C4_counterexample :
    Gradescope.init (some "user") (some "pass")
        (loginEnv loginFormDoc "https://www.gradescope.com/mystery") =
      .error (.loginError "Unknown return URL.") := by decide

/-- Claim C4, amended: construction succeeds exactly when the login attempt
completes with a boolean outcome; the outcome is then recorded in the state
and logged (info on success, warn on failure). An exception raised inside
`login()` (`ResponseError`, `LoginError`, or the missing-token crash)
propagates and makes construction itself fail. -/
theorem C4_construction (u p : String) (env : Nat → Response) :
    (∀ b s1 n,
      Gradescope.login { username := some u, password := some p, logged_in := none } env =
        (.ok b, s1, n) →
      Gradescope.init (some u) (some p) env =
        .ok (s1, if b then ["[Info] Login successful."] else ["[Warning] Login failed."])) ∧
    (∀ e s1 n,
      Gradescope.login { username := some u, password := some p, logged_in := none } env =
        (.error e, s1, n) →
      Gradescope.init (some u) (some p) env = .error e) := by
  constructor
  · intro b s1 n h
    cases b <;> simp [Gradescope.init, h]
  · intro e s1 n h
    simp [Gradescope.init, h]

/-- Witness for C4 at a concrete failed-but-boolean login. -/
theorem C4_construction_witness :
    Gradescope.init (some "user") (some "pass") (loginEnv loginFormDoc Constants.LOGIN_URL) =
      .ok ({ username := some "user", password := some "pass", logged_in := some false },
        ["[Warning] Login failed."]) :=
  (C4_construction "user" "pass" (loginEnv loginFormDoc Constants.LOGIN_URL)).1 false
    { username := some "user", password := some "pass", logged_in := some false } 2
    (by decide)

/-- Claim C1 as stated is false: a final URL can contain both "account" and
"login"; the code tests "account" first, so such a login returns `True` and
sets the flag true, while the claim requires every "login"-containing URL to
yield `False`. -/
theorem C1_counterexample :
    pyIn "login" "https://www.gradescope.com/account/login" = true ∧
    Gradescope.login freshClient
        (loginEnv loginFormDoc "https://www.gradescope.com/account/login") =
      (.ok true, { username := some "u", password := some "p", logged_in := some true }, 2) := by
  decide

/-- Claim C1, amended: the classification tests "account" first. A final URL
containing "account" yields `True` and flag true (even when it also contains
"login"); a URL containing "login" but not "account" yields `False` and flag
false; a URL containing neither yields flag false and
`LoginError("Unknown return URL.")`. -/
theorem C1_login_classification (s : Gradescope) (env : Nat → Response)
    (hu : s.username.isNone = false) (hp : s.password.isNone = false)
    (h0 : (env 0).statusCode = 200)
    (htok : (bsFind tokenInputSel (env 0).doc).isSome = true)
    (h1 : (env 1).statusCode = 200) :
    (pyIn "account" (env 1).url = true →
      Gradescope.login s env = (.ok true, { s with logged_in := some true }, 2)) ∧
    (pyIn "account" (env 1).url = false → pyIn "login" (env 1).url = true →
      Gradescope.login s env = (.ok false, { s with logged_in := some false }, 2)) ∧
    (pyIn "account" (env 1).url = false → pyIn "login" (env 1).url = false →
      Gradescope.login s env =
        (.error (.loginError "Unknown return URL."), { s with logged_in := some false }, 2)) := by
  obtain ⟨ti, hti⟩ := Option.isSome_iff_exists.mp htok
  refine ⟨fun ha => ?_, fun ha hl => ?_, fun ha hl => ?_⟩
  · simp [Gradescope.login, Gradescope._response_check, hu, hp, h0, h1, hti, ha]
  · simp [Gradescope.login, Gradescope._response_check, hu, hp, h0, h1, hti, ha, hl]
  · simp [Gradescope.login, Gradescope._response_check, hu, hp, h0, h1, hti, ha, hl]

/-- Witness for C1 on an "account" final URL. -/
theorem C1_login_classification_witness :
    Gradescope.login freshClient
        (loginEnv loginFormDoc "https://www.gradescope.com/account") =
      (.ok true, { username := some "u", password := some "p", logged_in := some true }, 2) :=
  (C1_login_classification freshClient
      (loginEnv loginFormDoc "https://www.gradescope.com/account")
      (by decide) (by decide) (by decide) (by decide) (by decide)).1 (by decide)

/-- `_response_check`'s error message contains the status code and the URL. -/
theorem respMsg_facts (r : Response) :
    pyIn (natToStr r.statusCode) (respMsg r) = true ∧
    pyIn r.url (respMsg r) = true := by
  constructor
  · show pyIn (natToStr r.statusCode)
      ("Failed to fetch the webpage. Status code: " ++ natToStr r.statusCode
        ++ ". URL: " ++ r.url) = true
    rw [String.append_assoc]
    exact pyIn_middle _ _ _
  · exact pyIn_suffix _ _

/-- `_response_check` on a non-200 response raises `ResponseError` with the
status-and-URL message. -/
theorem response_check_fail (r : Response) (h : r.statusCode ≠ 200) :
    Gradescope._response_check r = .error (.responseError (respMsg r)) := by
  simp [Gradescope._response_check, h]

/-- Claim C7: every non-200 response, on any fetch of `login` (both its GET
and its POST), `get_courses`, or `get_assignments`, fails the operation with
a `ResponseError` whose message contains the status code and the URL of the
request that produced the response. -/
theorem C7_non200_response :
    (∀ r : Response, r.statusCode ≠ 200 →
      Gradescope._response_check r = .error (.responseError (respMsg r)) ∧
      pyIn (natToStr r.statusCode) (respMsg r) = true ∧
      pyIn r.url (respMsg r) = true) ∧
    (∀ (s : Gradescope) (env : Nat → Response),
      s.username.isNone = false → s.password.isNone = false →
      (env 0).statusCode ≠ 200 →
      Gradescope.login s env = (.error (.responseError (respMsg (env 0))), s, 1) ∧
      pyIn (natToStr (env 0).statusCode) (respMsg (env 0)) = true ∧
      pyIn (env 0).url (respMsg (env 0)) = true) ∧
    (∀ (s : Gradescope) (env : Nat → Response),
      s.username.isNone = false → s.password.isNone = false →
      (env 0).statusCode = 200 →
      (bsFind tokenInputSel (env 0).doc).isSome = true →
      (env 1).statusCode ≠ 200 →
      Gradescope.login s env = (.error (.responseError (respMsg (env 1))), s, 2) ∧
      pyIn (natToStr (env 1).statusCode) (respMsg (env 1)) = true ∧
      pyIn (env 1).url (respMsg (env 1)) = true) ∧
    (∀ (s : Gradescope) (env : Nat → Response),
      s.logged_in = some true → (env 0).statusCode ≠ 200 →
      Gradescope.get_courses s env = (.error (.responseError (respMsg (env 0))), 1) ∧
      pyIn (natToStr (env 0).statusCode) (respMsg (env 0)) = true ∧
      pyIn (env 0).url (respMsg (env 0)) = true) ∧
    (∀ (s : Gradescope) (course : Course) (env : Nat → Response),
      s.logged_in = some true → (env 0).statusCode ≠ 200 →
      Gradescope.get_assignments s course env =
        (.error (.responseError (respMsg (env 0))), 1) ∧
      pyIn (natToStr (env 0).statusCode) (respMsg (env 0)) = true ∧
      pyIn (env 0).url (respMsg (env 0)) = true) := by
  refine ⟨fun r h => ⟨response_check_fail r h, respMsg_facts r⟩,
    fun s env hu hp h => ⟨?_, respMsg_facts (env 0)⟩,
    fun s env hu hp h0 htok h => ⟨?_, respMsg_facts (env 1)⟩,
    fun s env hl h => ⟨?_, respMsg_facts (env 0)⟩,
    fun s course env hl h => ⟨?_, respMsg_facts (env 0)⟩⟩
  · simp [Gradescope.login, hu, hp, response_check_fail (env 0) h]
  · obtain ⟨ti, hti⟩ := Option.isSome_iff_exists.mp htok
    simp [Gradescope.login, Gradescope._response_check, hu, hp, h0, hti, h]
  · simp [Gradescope.get_courses, hl, response_check_fail (env 0) h]
  · simp [Gradescope.get_assignments, hl, response_check_fail (env 0) h]

/-- Witness for C7: `get_courses` against a 500 site root. -/
theorem C7_non200_response_witness :
    Gradescope.get_courses loggedClient (failEnv 500) =
      (.error (.responseError (respMsg (failEnv 500 0))), 1) ∧
    pyIn (natToStr (failEnv 500 0).statusCode) (respMsg (failEnv 500 0)) = true ∧
    pyIn (failEnv 500 0).url (respMsg (failEnv 500 0)) = true :=
  C7_non200_response.2.2.2.1 loggedClient (failEnv 500) (by decide) (by decide)

/-- A successfully parsed course stores the box's `href` as its URL, and its
identifier is exactly `_parse_int` of the last `/`-segment of that URL. -/
theorem parseCourse_ok_id (tn : String) (box : Node) (c : Course)
    (h : parseCourse tn box = .ok c) :
    c.url = box.attrD "href" "" ∧
    Gradescope._parse_int ((pySplit '/' c.url).getLastD "") = .ok c.course_id := by
  unfold parseCourse at h
  cases hp : Gradescope._parse_int ((pySplit '/' (box.attrD "href" "")).getLastD "") with
  | error e => rw [hp] at h; simp at h
  | ok cid =>
    rw [hp] at h
    cases hs : bsFind shortnameSel box with
    | none => rw [hs] at h; simp at h
    | some p1 =>
      obtain ⟨sn, r1⟩ := p1
      rw [hs] at h
      cases hf : bsFind fullnameSel box with
      | none => rw [hf] at h; simp at h
      | some p2 =>
        obtain ⟨fn, r2⟩ := p2
        rw [hf] at h
        simp only [Except.ok.injEq] at h
        subst h
        exact ⟨rfl, hp⟩

/-- Every course produced by the box loop comes from a successful
`parseCourse` on some box of the list. -/
theorem parseBoxes_ok_mem (tn : String) :
    ∀ (bs : List Node) (cs : List Course), parseBoxes tn bs = .ok cs →
      ∀ c ∈ cs, ∃ box ∈ bs, parseCourse tn box = .ok c := by
  intro bs
  induction bs with
  | nil =>
    intro cs h c hc
    simp [parseBoxes] at h
    subst h
    simp at hc
  | cons b rest ih =>
    intro cs h c hc
    by_cases hb : b.tag = "a"
    · have hb' : (b.tag == "a") = true := by simp [hb]
      rw [parseBoxes, hb'] at h
      simp only [if_true] at h
      cases hcb : parseCourse tn b with
      | error e => rw [hcb] at h; simp at h
      | ok c0 =>
        rw [hcb] at h
        cases hrest : parseBoxes tn rest with
        | error e => rw [hrest] at h; simp at h
        | ok cs0 =>
          rw [hrest] at h
          simp only [Except.ok.injEq] at h
          subst h
          rcases List.mem_cons.mp hc with rfl | hc2
          · exact ⟨b, by simp, hcb⟩
          · obtain ⟨box, hmem, hpc⟩ := ih cs0 hrest c hc2
            exact ⟨box, by simp [hmem], hpc⟩
    · have hb' : (b.tag == "a") = false := by simp [hb]
      rw [parseBoxes, hb'] at h
      simp only [Bool.false_eq_true, if_false] at h
      obtain ⟨box, hmem, hpc⟩ := ih cs h c hc
      exact ⟨box, by simp [hmem], hpc⟩

/-- Every course produced by the term loop comes from a successful
`parseCourse`. -/
theorem parseTerms_ok_mem :
    ∀ (l : List (Node × List Node)) (cs : List Course), parseTerms l = .ok cs →
      ∀ c ∈ cs, ∃ tn box, parseCourse tn box = .ok c := by
  intro l
  induction l with
  | nil =>
    intro cs h c hc
    simp [parseTerms] at h
    subst h
    simp at hc
  | cons p rest ih =>
    obtain ⟨t, sibs⟩ := p
    intro cs h c hc
    rw [parseTerms] at h
    cases hcont : bsNextSib termBoxesSel sibs with
    | none =>
      simp only [hcont] at h
      exact ih cs h c hc
    | some container =>
      simp only [hcont] at h
      cases hbx : parseBoxes (Node.getTextStrip t) (bsFindAll courseBoxSel container) with
      | error e => simp [hbx] at h
      | ok cs1 =>
        simp only [hbx] at h
        cases hrest : parseTerms rest with
        | error e => simp [hrest] at h
        | ok more =>
          simp only [hrest, Except.ok.injEq] at h
          subst h
          rcases List.mem_append.mp hc with hc | hc
          · obtain ⟨box, _, hpc⟩ := parseBoxes_ok_mem _ _ cs1 hbx c hc
            exact ⟨Node.getTextStrip t, box, hpc⟩
          · exact ih more hrest c hc

/-- A `get_courses` run that returns `.ok cs` obtained `cs` from the term
loop. -/
theorem get_courses_ok_parseTerms (s : Gradescope) (env : Nat → Response)
    (cs : List Course) (n : Nat) (h : Gradescope.get_courses s env = (.ok cs, n)) :
    ∃ l, parseTerms l = .ok cs := by
  unfold Gradescope.get_courses at h
  cases hli : s.logged_in with
  | none => rw [hli] at h; simp at h
  | some b =>
    rw [hli] at h
    cases b with
    | false => simp at h
    | true =>
      simp only at h
      cases hrc : Gradescope._response_check (env 0) with
      | error e => simp [hrc] at h
      | ok bb =>
        simp only [hrc] at h
        cases hhd : bsFind headingSel (env 0).doc with
        | none => simp [hhd] at h
        | some p1 =>
          obtain ⟨hd, sibs⟩ := p1
          simp only [hhd] at h
          cases hcl : bsNextSib courseListSel sibs with
          | none => simp [hcl] at h
          | some cl =>
            simp only [hcl, Prod.mk.injEq] at h
            exact ⟨bsDescAll termSel cl, h.1⟩

/-- A non-anchor element in the box list is skipped without effect. -/
theorem parseBoxes_skip (tn : String) (b : Node) (rest : List Node)
    (hb : b.tag ≠ "a") : parseBoxes tn (b :: rest) = parseBoxes tn rest := by
  have hb' : (b.tag == "a") = false := by simp [hb]
  rw [parseBoxes, hb']
  simp

/-- When the box loop succeeds, the produced courses correspond one-to-one,
in order, to the anchor-tag boxes of the list. -/
theorem parseBoxes_ok_forall2 (tn : String) :
    ∀ (bs : List Node) (cs : List Course), parseBoxes tn bs = .ok cs →
      List.Forall₂ (fun b c => parseCourse tn b = .ok c)
        (bs.filter (fun b => b.tag == "a")) cs := by
  intro bs
  induction bs with
  | nil =>
    intro cs h
    simp [parseBoxes] at h
    subst h
    simp
  | cons b rest ih =>
    intro cs h
    by_cases hb : b.tag = "a"
    · have hb' : (b.tag == "a") = true := by simp [hb]
      rw [parseBoxes, hb'] at h
      simp only [if_true] at h
      cases hcb : parseCourse tn b with
      | error e => rw [hcb] at h; simp at h
      | ok c0 =>
        rw [hcb] at h
        cases hrest : parseBoxes tn rest with
        | error e => rw [hrest] at h; simp at h
        | ok cs0 =>
          rw [hrest] at h
          simp only [Except.ok.injEq] at h
          subst h
          rw [List.filter_cons, hb']
          simp only [if_true]
          exact List.Forall₂.cons hcb (ih cs0 hrest)
    · have hb' : (b.tag == "a") = false := by simp [hb]
      rw [parseBoxes, hb'] at h
      simp only [Bool.false_eq_true, if_false] at h
      rw [List.filter_cons, hb']
      simp only [Bool.false_eq_true, if_false]
      exact ih cs h

/-- `Course(...)` construction on a box whose last `href` segment has no
digit characters fails with `ValueError` (from `int('')`). -/
theorem parseCourse_nodigits (tn : String) (box : Node)
    (hdig : ((pySplit '/' (box.attrD "href" "")).getLastD "").data.filter
      Char.isDigit = []) :
    parseCourse tn box =
      .error (.valueError "invalid literal for int() with base 10") := by
  have h1 : Gradescope._parse_int ((pySplit '/' (box.attrD "href" "")).getLastD "") =
      .error (.valueError "invalid literal for int() with base 10") := by
    simp only [Gradescope._parse_int, hdig]
    rfl
  rw [parseCourse, h1]

/-- When the box loop succeeds, every anchor box of the list was parsed
successfully. -/
theorem parseBoxes_ok_anchor (tn : String) :
    ∀ (bs : List Node) (cs : List Course), parseBoxes tn bs = .ok cs →
      ∀ b ∈ bs, b.tag = "a" → ∃ c, parseCourse tn b = .ok c := by
  intro bs
  induction bs with
  | nil => intro cs _ b hb; simp at hb
  | cons b0 rest ih =>
    intro cs h b hb hba
    by_cases hb0 : b0.tag = "a"
    · have hb' : (b0.tag == "a") = true := by simp [hb0]
      rw [parseBoxes, hb'] at h
      simp only [if_true] at h
      cases hcb : parseCourse tn b0 with
      | error e => rw [hcb] at h; simp at h
      | ok c0 =>
        rw [hcb] at h
        cases hrest : parseBoxes tn rest with
        | error e => rw [hrest] at h; simp at h
        | ok cs0 =>
          rcases List.mem_cons.mp hb with rfl | hb2
          · exact ⟨c0, hcb⟩
          · exact ih cs0 hrest b hb2 hba
    · have hb' : (b0.tag == "a") = false := by simp [hb0]
      rw [parseBoxes, hb'] at h
      simp only [Bool.false_eq_true, if_false] at h
      rcases List.mem_cons.mp hb with rfl | hb2
      · exact absurd hba hb0
      · exact ih cs h b hb2 hba

/-- Claim C9: every Course that `get_courses` returns has its identifier
equal to `_parse_int` of the last `/`-segment of its stored URL (the
anchor's `href`); a box whose last `href` segment has no digit makes
`Course(...)` construction fail with `ValueError`; and the box loop can
never succeed while containing such an anchor box — the failure aborts the
call instead of producing a zero or default identifier. -/
theorem C9_course_id_digits :
    (∀ (s : Gradescope) (env : Nat → Response) (cs : List Course) (n : Nat),
      Gradescope.get_courses s env = (.ok cs, n) →
      ∀ c ∈ cs,
        Gradescope._parse_int ((pySplit '/' c.url).getLastD "") = .ok c.course_id) ∧
    (∀ (tn : String) (box : Node),
      ((pySplit '/' (box.attrD "href" "")).getLastD "").data.filter Char.isDigit = [] →
      parseCourse tn box =
        .error (.valueError "invalid literal for int() with base 10")) ∧
    (∀ (tn : String) (bs : List Node) (cs : List Course) (b : Node),
      parseBoxes tn bs = .ok cs → b ∈ bs → b.tag = "a" →
      ((pySplit '/' (b.attrD "href" "")).getLastD "").data.filter Char.isDigit = [] →
      False) := by
  refine ⟨?_, fun tn box hdig => parseCourse_nodigits tn box hdig, ?_⟩
  · intro s env cs n h c hc
    obtain ⟨l, hl⟩ := get_courses_ok_parseTerms s env cs n h
    obtain ⟨tn, box, hpc⟩ := parseTerms_ok_mem l cs hl c hc
    exact (parseCourse_ok_id tn box c hpc).2
  · intro tn bs cs b hbs hmem hba hdig
    obtain ⟨c, hc⟩ := parseBoxes_ok_anchor tn bs cs hbs b hmem hba
    rw [parseCourse_nodigits tn b hdig] at hc
    exact absurd hc (by simp)

/-- Witness for C9 on the sample page. -/
theorem C9_course_id_digits_witness :
    Gradescope._parse_int ((pySplit '/' sampleCourse.url).getLastD "") =
      .ok sampleCourse.course_id :=
  C9_course_id_digits.1 loggedClient (pageEnv sampleRootDoc) [sampleCourse] 1
    (by decide) sampleCourse (by decide)

/-- Claim C10: a `courseBox` element that is not an anchor tag is silently
skipped by the box loop (no record, no failure), and on success the produced
courses correspond one-to-one, in document order, to the anchor-tag
`courseBox` elements. -/
theorem C10_nonanchor_skipped :
    (∀ (tn : String) (b : Node) (rest : List Node), b.tag ≠ "a" →
      parseBoxes tn (b :: rest) = parseBoxes tn rest) ∧
    (∀ (tn : String) (bs : List Node) (cs : List Course),
      parseBoxes tn bs = .ok cs →
      List.Forall₂ (fun b c => parseCourse tn b = .ok c)
        (bs.filter (fun b => b.tag == "a")) cs) :=
  ⟨parseBoxes_skip, parseBoxes_ok_forall2⟩

/-- Witness for C10: a non-anchor box is dropped from the loop. -/
theorem C10_nonanchor_skipped_witness :
    parseBoxes "Fall 2024" [divBox] = parseBoxes "Fall 2024" [] :=
  C10_nonanchor_skipped.1 "Fall 2024" divBox [] (by decide)

/-- Claim C6 as stated is false: with the heading and the `courseList`
container present but the term's `courseList--coursesForTerm` container
absent, `get_courses` does not fail with `ResponseError` — the term is
silently skipped and the call succeeds with an empty list. -/
theorem C6_counterexample :
    Gradescope.get_courses loggedClient (pageEnv softSkipDoc) = (.ok [], 1) := by
  decide

/-- Claim C6, amended: only the missing "Your Courses" heading fails
`get_courses` with `ResponseError`. A missing `courseList` sibling, missing
shortname/name nodes, a missing assignments table or `tbody`, and a missing
status node fail the call with `AttributeError`; a missing submit control or
time element fails it with `TypeError`; and a term's missing
`courseList--coursesForTerm` container is silently skipped rather than
failing. -/
theorem C6_landmark_failures :
    (∀ (s : Gradescope) (env : Nat → Response),
      s.logged_in = some true → (env 0).statusCode = 200 →
      bsFind headingSel (env 0).doc = none →
      Gradescope.get_courses s env =
        (.error (.responseError "Cannot find heading \"Your Courses\""), 1)) ∧
    (∀ (s : Gradescope) (env : Nat → Response) (hd : Node) (sibs : List Node),
      s.logged_in = some true → (env 0).statusCode = 200 →
      bsFind headingSel (env 0).doc = some (hd, sibs) →
      bsNextSib courseListSel sibs = none →
      Gradescope.get_courses s env =
        (.error (.attributeError "NoneType object has no attribute find_all"), 1)) ∧
    (∀ (t : Node) (sibs : List Node) (rest : List (Node × List Node)),
      bsNextSib termBoxesSel sibs = none →
      parseTerms ((t, sibs) :: rest) = parseTerms rest) ∧
    (∀ (tn : String) (box : Node) (cid : Nat),
      Gradescope._parse_int ((pySplit '/' (box.attrD "href" "")).getLastD "") = .ok cid →
      bsFind shortnameSel box = none →
      parseCourse tn box =
        .error (.attributeError "NoneType object has no attribute get_text")) ∧
    (∀ (tn : String) (box : Node) (cid : Nat) (sn : Node × List Node),
      Gradescope._parse_int ((pySplit '/' (box.attrD "href" "")).getLastD "") = .ok cid →
      bsFind shortnameSel box = some sn →
      bsFind fullnameSel box = none →
      parseCourse tn box =
        .error (.attributeError "NoneType object has no attribute get_text")) ∧
    (∀ (s : Gradescope) (course : Course) (env : Nat → Response),
      s.logged_in = some true → (env 0).statusCode = 200 →
      bsFind assignTableSel (env 0).doc = none →
      Gradescope.get_assignments s course env =
        (.error (.attributeError "NoneType object has no attribute find"), 1)) ∧
    (∀ (s : Gradescope) (course : Course) (env : Nat → Response)
        (tbl : Node) (ts : List Node),
      s.logged_in = some true → (env 0).statusCode = 200 →
      bsFind assignTableSel (env 0).doc = some (tbl, ts) →
      bsFind tbodySel tbl = none →
      Gradescope.get_assignments s course env =
        (.error (.attributeError "NoneType object has no attribute find_all"), 1)) ∧
    (∀ (row : Node), bsFind submitButtonSel row = none →
      parseRow row = .error (.typeError "NoneType object is not subscriptable")) ∧
    parseRow rowNoStatus = .error (.attributeError "NoneType object has no attribute find") ∧
    parseRow rowNoRelease = .error (.typeError "NoneType object is not subscriptable") ∧
    parseRow rowNoDue = .error (.typeError "NoneType object is not subscriptable") := by
  refine ⟨?_, ?_, ?_, ?_, ?_, ?_, ?_, ?_, by decide, by decide, by decide⟩
  · intro s env hli h200 hhd
    simp [Gradescope.get_courses, Gradescope._response_check, hli, h200, hhd]
  · intro s env hd sibs hli h200 hhd hcl
    simp [Gradescope.get_courses, Gradescope._response_check, hli, h200, hhd, hcl]
  · intro t sibs rest hcont
    rw [parseTerms]
    simp [hcont]
  · intro tn box cid hp hs
    rw [parseCourse, hp, hs]
  · intro tn box cid sn hp hs hf
    obtain ⟨n1, r1⟩ := sn
    rw [parseCourse, hp, hs, hf]
  · intro s course env hli h200 htbl
    simp [Gradescope.get_assignments, Gradescope._response_check, hli, h200, htbl]
  · intro s course env tbl ts hli h200 htbl htb
    simp [Gradescope.get_assignments, Gradescope._response_check, hli, h200, htbl, htb]
  · intro row hbt
    rw [parseRow, hbt]

/-- Witness for C6: the missing-heading `ResponseError` at a concrete page. -/
theorem C6_landmark_failures_witness :
    Gradescope.get_courses loggedClient (pageEnv emptyDoc) =
      (.error (.responseError "Cannot find heading \"Your Courses\""), 1) :=
  C6_landmark_failures.1 loggedClient (pageEnv emptyDoc) (by decide) (by decide)
    (by decide)
